import Mathlib

/-!
# i2c_bug: IMU bring-up and heartbeat loop of the M5StickCPlus2 sketch

A shallow embedding of `src/i2c_bug.cpp`.  The sketch consists of the two
Arduino callbacks `setup()` and `loop()`.  Both only talk to external
libraries (board support, IMU driver, BLE stack, serial port), so the
embedding records every library call in an effect trace, and takes the
answers of the outside world from oracles:

* the result of the k-th call of `writeRegister8` (a `Bool`),
* whether the IMU driver instance exists (the pointer returned by
  `_imu_instance[0].get()` is non-null),
* the value returned by the k-th call of `millis()`.

`assert(e)` is embedded with assertions enabled (the source does not define
`NDEBUG`): `e` is evaluated, and a false value aborts the program.

Machine integers: `millis()` returns `unsigned long` and `seconds` is
`unsigned int`; both are 32 bits wide on the ESP32 target of the sketch and
are embedded as `Nat` with explicit reduction modulo `2^32`.
-/

namespace I2cBug

/-! ## Data model -/

/-- Constants of `m5::MPU6886_Class` used by the sketch.  The header
`utility/imu/MPU6886_Class.hpp` belongs to the M5Unified library and is not
part of the repository, so the register addresses and the two full-scale
enumerators are parameters of the embedding. -/
structure MPU6886_Class where
  REG_GYRO_CONFIG : Nat
  REG_ACCEL_CONFIG : Nat
  REG_SMPLRT_DIV : Nat
  REG_CONFIG : Nat
  REG_ACCEL_CONFIG2 : Nat
  GFS_250DPS : Nat
  AFS_2G : Nat

/-- One call into an external library, with its arguments (and, for
`millis`, the value it returned). -/
inductive Effect where
  | config
  | begin
  | setRotation (r : Nat)
  | setTextSize (s : Nat)
  | writeRegister8 (reg : Nat) (data : Nat)
  | delay (ms : Nat)
  | bleInit (name : String)
  | createServer
  | createService (uuid : String)
  | createCharacteristic (uuid : String) (properties : Nat)
  | serviceStart
  | startAdvertising
  | imuUpdate
  | millis (value : Nat)
  | setCursor (x : Nat) (y : Nat)
  | displayPrintf (text : String)
  | serialPrintf (text : String)
  deriving DecidableEq, Repr

/-- Why a program stopped before reaching the end of `setup()`. -/
inductive Halt where
  | assertFailed
  | nullDeref
  deriving DecidableEq, Repr

/-- Answers of the outside world. `imuInstance` tells whether
`StickCP2.Imu._imu_instance[0].get()` is non-null, `writeRegister8 k` is the
result of the k-th register write (counted from 0). -/
structure Env where
  imuInstance : Bool
  writeRegister8 : Nat → Bool

/-- Program state: the effect trace so far, the number of `writeRegister8`
and `millis` calls issued so far (indices into the oracles), and the two
function-local statics of `loop()`.  `t = none` means that the dynamic
initialiser of `static auto t = millis();` has not run yet. -/
structure World where
  trace : List Effect
  writes : Nat
  reads : Nat
  seconds : Nat
  t : Option Nat
  deriving DecidableEq, Repr

/-- State at program start: nothing has happened, `seconds` is
constant-initialised to 0, `t` is not yet initialised. -/
def World.boot : World :=
  { trace := [], writes := 0, reads := 0, seconds := 0, t := none }

/-- Width of `unsigned int` and `unsigned long` on the target. -/
def UINT_MOD : Nat := 4294967296

/-- Unsigned 32-bit subtraction `a - b`, for `a` below `2^32`. -/
def sub32 (a b : Nat) : Nat := (a + UINT_MOD - b % UINT_MOD) % UINT_MOD

/-- The value `printf` shows for a `%d` conversion that is handed an
`unsigned int`: the same 32 bits read as a signed `int`. -/
def asInt (u : Nat) : Int :=
  if u < 2147483648 then (u : Int) else (u : Int) - 4294967296

/-- The function `std::to_string(int)`: decimal rendering. -/
def to_string (i : Int) : String := toString i

/-! ## A small monad for programs that may halt -/

/-- A program: from a state to a result (or the reason of the halt) and the
state reached. -/
def Prog (α : Type) : Type := World → Except Halt α × World

/-- Return. -/
def Prog.pure {α : Type} (a : α) : Prog α := fun w => (Except.ok a, w)

/-- Sequencing: a halt of the first part skips the rest. -/
def Prog.bind {α β : Type} (m : Prog α) (f : α → Prog β) : Prog β := fun w =>
  match m w with
  | (Except.ok a, w1) => f a w1
  | (Except.error e, w1) => (Except.error e, w1)

instance : Monad Prog where
  pure := Prog.pure
  bind := Prog.bind

/-- Record a library call in the trace. -/
def call (e : Effect) : Prog Unit := fun w =>
  (Except.ok (), { w with trace := w.trace ++ [e] })

/-- Stop the program. -/
def halt {α : Type} (h : Halt) : Prog α := fun w => (Except.error h, w)

/-- The statement `assert(b)`, assertions enabled. -/
def assert (b : Bool) : Prog Unit :=
  if b then Prog.pure () else halt Halt.assertFailed

/-- The call `imu->writeRegister8(reg, data)`: a call through a null pointer
stops the program; otherwise the write is issued and the transport reports
whether it succeeded. -/
def writeRegister8 (env : Env) (reg data : Nat) : Prog Bool := fun w =>
  if env.imuInstance then
    (Except.ok (env.writeRegister8 w.writes),
      { w with trace := w.trace ++ [Effect.writeRegister8 reg data], writes := w.writes + 1 })
  else (Except.error Halt.nullDeref, w)

/-- The call `millis()`: the next clock reading, an `unsigned long`. -/
def millis (clock : Nat → Nat) : Prog Nat := fun w =>
  let m := clock w.reads % UINT_MOD
  (Except.ok m, { w with trace := w.trace ++ [Effect.millis m], reads := w.reads + 1 })

/-! ## `setup()` -/

/-- The loop `for (int i = 1000; i <= 1006; ++i)` of `setup()`, from the
current value of `i`. -/
def characteristicsFrom (i : Nat) : Prog Unit :=
  if i ≤ 1006 then do
    let characUuid := to_string (i : Int)
    call (Effect.createCharacteristic characUuid 0)
    characteristicsFrom (i + 1)
  else Prog.pure ()
termination_by 1007 - i
decreasing_by omega

/-- The function `setup()`. -/
def setup (c : MPU6886_Class) (env : Env) : Prog Unit := do
  call Effect.config
  call Effect.begin
  call (Effect.setRotation 3)
  call (Effect.setTextSize 3)
  assert (← writeRegister8 env c.REG_GYRO_CONFIG (c.GFS_250DPS <<< 3))
  call (Effect.delay 10)
  assert (← writeRegister8 env c.REG_ACCEL_CONFIG (c.AFS_2G <<< 3))
  call (Effect.delay 10)
  assert (← writeRegister8 env c.REG_SMPLRT_DIV 0x00)
  call (Effect.delay 10)
  assert (← writeRegister8 env c.REG_CONFIG 0x05)
  call (Effect.delay 10)
  assert (← writeRegister8 env c.REG_ACCEL_CONFIG2 (5 <<< 0 ||| 0 <<< 3 ||| 0 <<< 4))
  call (Effect.delay 10)
  call (Effect.bleInit "I2C Bug")
  call Effect.createServer
  call (Effect.createService "6A5B")
  characteristicsFrom 1000
  call Effect.serviceStart
  call Effect.startAdvertising

/-! ## `loop()` -/

/-- The declaration `static auto t = millis();`: the initialiser runs the
first time control passes through it and never again. -/
def initT (clock : Nat → Nat) : Prog Nat := fun w =>
  match w.t with
  | some t => (Except.ok t, w)
  | none =>
    match millis clock w with
    | (Except.ok m, w1) => (Except.ok m, { w1 with t := some m })
    | (Except.error e, w1) => (Except.error e, w1)

/-- Read the static `seconds`. -/
def getSeconds : Prog Nat := fun w => (Except.ok w.seconds, w)

/-- The expression `seconds++` on an `unsigned int`: the old value is the
result, the variable is incremented modulo `2^32`. -/
def postIncSeconds : Prog Nat := fun w =>
  (Except.ok w.seconds, { w with seconds := (w.seconds + 1) % UINT_MOD })

/-- The assignment `t = m`. -/
def setT (m : Nat) : Prog Unit := fun w => (Except.ok (), { w with t := some m })

/-- The statements guarded by the heartbeat gate. -/
def heartbeat (clock : Nat → Nat) : Prog Unit := do
  call (Effect.setCursor 60 60)
  call (Effect.displayPrintf (toString (asInt (← getSeconds)) ++ "      "))
  call (Effect.serialPrintf (toString (asInt (← postIncSeconds)) ++ " "))
  setT (← millis clock)

/-- The function `loop()`. -/
def loop (clock : Nat → Nat) : Prog Unit := do
  call Effect.imuUpdate
  let t ← initT clock
  if sub32 (← millis clock) t > 1000 then
    heartbeat clock
  else Prog.pure ()

/-! ## Runs -/

/-- The first `n` iterations of the polling loop.  Iteration `k` (counted
from 0) reads the clock `sched k`: a clock that does not depend on `k` is one
clock shared by the whole run, indexed by the number of `millis()` calls made
so far. -/
def runLoop (sched : Nat → Nat → Nat) : Nat → Prog Unit
  | 0 => Prog.pure ()
  | k + 1 => do
    runLoop sched k
    loop (sched k)

/-- The whole program as the Arduino core runs it: `setup()` once, then
`loop()` again and again (here: the first `n` iterations). -/
def sketch (c : MPU6886_Class) (env : Env) (sched : Nat → Nat → Nat) (n : Nat) : Prog Unit := do
  setup c env
  runLoop sched n

/-! ## Observations on states and traces -/

/-- The value returned by the k-th `millis()` call. -/
def reading (clock : Nat → Nat) (k : Nat) : Nat := clock k % UINT_MOD

/-- The heartbeat timestamp that the gate of the coming iteration compares
against: the static `t`, or the reading that will initialise it. -/
def lastTick (clock : Nat → Nat) (w : World) : Nat :=
  match w.t with
  | some t => t
  | none => reading clock w.reads

/-- Index of the clock reading that the gate of the coming iteration uses. -/
def gateIndex (w : World) : Nat :=
  match w.t with
  | some _ => w.reads
  | none => w.reads + 1

/-- The elapsed time `millis() - t` that the coming iteration computes. -/
def elapsed (clock : Nat → Nat) (w : World) : Nat :=
  sub32 (reading clock (gateIndex w)) (lastTick clock w)

/-- Trace of an iteration up to and including the clock read of the gate. -/
def gateTrace (clock : Nat → Nat) (w : World) : List Effect :=
  w.trace ++ [Effect.imuUpdate] ++
    (match w.t with
     | some _ => []
     | none => [Effect.millis (reading clock w.reads)]) ++
    [Effect.millis (reading clock (gateIndex w))]

/-- State after an iteration whose gate was closed (Idle-tick). -/
def idleWorld (clock : Nat → Nat) (w : World) : World :=
  { w with trace := gateTrace clock w, reads := gateIndex w + 1, t := some (lastTick clock w) }

/-- State after an iteration whose gate was open (Heartbeat-fire). -/
def firedWorld (clock : Nat → Nat) (w : World) : World :=
  { trace := gateTrace clock w ++
      [Effect.setCursor 60 60,
       Effect.displayPrintf (toString (asInt w.seconds) ++ "      "),
       Effect.serialPrintf (toString (asInt w.seconds) ++ " "),
       Effect.millis (reading clock (gateIndex w + 1))],
    writes := w.writes,
    reads := gateIndex w + 2,
    seconds := (w.seconds + 1) % UINT_MOD,
    t := some (reading clock (gateIndex w + 1)) }

/-- The statements of `loop()` that follow the IMU refresh (lines 96-103). -/
def afterUpdate (clock : Nat → Nat) : Prog Unit := do
  let t ← initT clock
  if sub32 (← millis clock) t > 1000 then
    heartbeat clock
  else Prog.pure ()

/-- Register writes. -/
def Effect.isWrite : Effect → Bool
  | Effect.writeRegister8 _ _ => true
  | _ => false

/-- Register writes and delays: the effects of the bring-up sequence. -/
def Effect.isBringUp : Effect → Bool
  | Effect.writeRegister8 _ _ => true
  | Effect.delay _ => true
  | _ => false

/-- Calls into the BLE stack. -/
def Effect.isAdvertiser : Effect → Bool
  | Effect.bleInit _ => true
  | Effect.createServer => true
  | Effect.createService _ => true
  | Effect.createCharacteristic _ _ => true
  | Effect.serviceStart => true
  | Effect.startAdvertising => true
  | _ => false

/-- Characteristic creations. -/
def Effect.isCharacteristic : Effect → Bool
  | Effect.createCharacteristic _ _ => true
  | _ => false

/-- Effects of the heartbeat: display, serial port and clock. -/
def Effect.isHeartbeat : Effect → Bool
  | Effect.millis _ => true
  | Effect.setCursor _ _ => true
  | Effect.displayPrintf _ => true
  | Effect.serialPrintf _ => true
  | _ => false

/-- The texts written to the serial port, in order. -/
def serialOut : List Effect → List String
  | [] => []
  | Effect.serialPrintf s :: rest => s :: serialOut rest
  | _ :: rest => serialOut rest

/-- The register/value table of the bring-up sequence (spec section 6). -/
def bringUpTable (c : MPU6886_Class) : List Effect :=
  [Effect.writeRegister8 c.REG_GYRO_CONFIG (c.GFS_250DPS <<< 3),
   Effect.writeRegister8 c.REG_ACCEL_CONFIG (c.AFS_2G <<< 3),
   Effect.writeRegister8 c.REG_SMPLRT_DIV 0,
   Effect.writeRegister8 c.REG_CONFIG 5,
   Effect.writeRegister8 c.REG_ACCEL_CONFIG2 5]

/-- The complete effect trace of a `setup()` in which nothing fails. -/
def setupTrace (c : MPU6886_Class) : List Effect :=
  [Effect.config, Effect.begin, Effect.setRotation 3, Effect.setTextSize 3,
   Effect.writeRegister8 c.REG_GYRO_CONFIG (c.GFS_250DPS <<< 3), Effect.delay 10,
   Effect.writeRegister8 c.REG_ACCEL_CONFIG (c.AFS_2G <<< 3), Effect.delay 10,
   Effect.writeRegister8 c.REG_SMPLRT_DIV 0, Effect.delay 10,
   Effect.writeRegister8 c.REG_CONFIG 5, Effect.delay 10,
   Effect.writeRegister8 c.REG_ACCEL_CONFIG2 5, Effect.delay 10,
   Effect.bleInit "I2C Bug", Effect.createServer, Effect.createService "6A5B",
   Effect.createCharacteristic "1000" 0, Effect.createCharacteristic "1001" 0,
   Effect.createCharacteristic "1002" 0, Effect.createCharacteristic "1003" 0,
   Effect.createCharacteristic "1004" 0, Effect.createCharacteristic "1005" 0,
   Effect.createCharacteristic "1006" 0, Effect.serviceStart, Effect.startAdvertising]

/-- State in which a successful `setup()` leaves the program. -/
def setupWorld (c : MPU6886_Class) : World :=
  { trace := setupTrace c, writes := 5, reads := 0, seconds := 0, t := none }

/-! ## Concrete inputs -/

/-- Register map of the MPU6886 as an example of the constants. -/
def exampleMpu : MPU6886_Class :=
  { REG_GYRO_CONFIG := 27, REG_ACCEL_CONFIG := 28, REG_SMPLRT_DIV := 25, REG_CONFIG := 26,
    REG_ACCEL_CONFIG2 := 29, GFS_250DPS := 0, AFS_2G := 0 }

/-- A world in which the IMU is present and every write succeeds. -/
def goodEnv : Env := { imuInstance := true, writeRegister8 := fun _ => true }

/-- A world in which the third register write fails. -/
def thirdWriteFails : Env := { imuInstance := true, writeRegister8 := fun k => k != 2 }

/-- A state in the middle of a run: the last heartbeat was at time 0. -/
def tickedAtZero : World :=
  { trace := [], writes := 5, reads := 7, seconds := 3, t := some 0 }

/-- A clock that always shows 1000. -/
def clockAt1000 : Nat → Nat := fun _ => 1000

/-- A monotone clock: 600 time-units pass between two readings, until the
clock stops at 4000000000. -/
def slowClock : Nat → Nat := fun k => min (600 * k) 4000000000

/-- The schedule of a loop that runs one iteration per time-unit from time
`T0` on: every reading of iteration `k` shows `T0 + k`. -/
def everyTimeUnit (T0 : Nat) : Nat → Nat → Nat := fun k _ => T0 + k

/-- Invariant of a run of the loop under a monotone clock, relating the
state `w` reached to the state `w0` at the first loop entry: the timestamp
has advanced by at least 1001 per heartbeat, it is not ahead of the clock,
and the serial port has shown the numbers below the counter, in order. -/
structure HeartbeatInv (clock : Nat → Nat) (w0 w : World) : Prop where
  reads_le : w0.reads ≤ w.reads
  drift : reading clock w0.reads + 1001 * w.seconds ≤ lastTick clock w
  tick_le : lastTick clock w ≤ reading clock (gateIndex w)
  now_le : 1001 * w.seconds ≤ reading clock (w.reads - 1) - reading clock w0.reads
  serial : serialOut w.trace =
    serialOut w0.trace ++ (List.range w.seconds).map (fun j => toString j ++ " ")


/-- A state whose last heartbeat was 296 time-units before the clock wraps. -/
def tickedBeforeWrap : World :=
  { trace := [], writes := 5, reads := 7, seconds := 3, t := some 4294967000 }

/-- A clock that shows the time 2000 time-units after 4294967000, which is
past the wrap of a 32-bit reading. -/
def clockAfterWrap : Nat → Nat := fun _ => 4294967000 + 2000

/-- The seven iterations of the characteristic loop of `setup()`. -/
theorem characteristics_run (w : World) :
    characteristicsFrom 1000 w = (Except.ok (), { w with trace := w.trace ++
      [Effect.createCharacteristic "1000" 0, Effect.createCharacteristic "1001" 0,
       Effect.createCharacteristic "1002" 0, Effect.createCharacteristic "1003" 0,
       Effect.createCharacteristic "1004" 0, Effect.createCharacteristic "1005" 0,
       Effect.createCharacteristic "1006" 0] }) := by
  have e0 : to_string ((1000 : Nat) : Int) = "1000" := by decide
  have e1 : to_string ((1001 : Nat) : Int) = "1001" := by decide
  have e2 : to_string ((1002 : Nat) : Int) = "1002" := by decide
  have e3 : to_string ((1003 : Nat) : Int) = "1003" := by decide
  have e4 : to_string ((1004 : Nat) : Int) = "1004" := by decide
  have e5 : to_string ((1005 : Nat) : Int) = "1005" := by decide
  have e6 : to_string ((1006 : Nat) : Int) = "1006" := by decide
  rw [characteristicsFrom, characteristicsFrom, characteristicsFrom, characteristicsFrom,
    characteristicsFrom, characteristicsFrom, characteristicsFrom, characteristicsFrom]
  simp only [e0, e1, e2, e3, e4, e5, e6]
  simp [bind, Prog.bind, call, Prog.pure]

/-- A `setup()` with the IMU present and five successful writes runs to its
end and leaves the state `setupWorld`. -/
theorem setup_success (c : MPU6886_Class) (env : Env) (hi : env.imuInstance = true)
    (hw : ∀ k, k < 5 → env.writeRegister8 k = true) :
    setup c env World.boot = (Except.ok (), setupWorld c) := by
  have h0 := hw 0 (by omega)
  have h1 := hw 1 (by omega)
  have h2 := hw 2 (by omega)
  have h3 := hw 3 (by omega)
  have h4 := hw 4 (by omega)
  simp only [setup, bind, Prog.bind, call, Prog.pure, assert, halt, writeRegister8, World.boot, hi,
    h0, h1, h2, h3, h4, characteristics_run, setupTrace, setupWorld, if_true, List.nil_append,
    List.append_assoc, List.cons_append, Nat.zero_add, Nat.reduceAdd]
  rfl

/-- One iteration of `loop()` never halts, and its effect on the state is
decided by the gate alone. -/
theorem loop_eq (clock : Nat → Nat) (w : World) :
    loop clock w = (Except.ok (),
      if 1000 < elapsed clock w then firedWorld clock w else idleWorld clock w) := by
  rcases w with ⟨tr, wr, rd, s, t⟩
  cases t with
  | none =>
    by_cases h : 1000 < sub32 (clock (rd + 1) % UINT_MOD) (clock rd % UINT_MOD)
    · simp [loop, heartbeat, bind, Prog.bind, Prog.pure, call, initT, millis, elapsed, reading,
        gateIndex, lastTick, firedWorld, idleWorld, gateTrace, getSeconds, postIncSeconds, setT, h]
    · simp [loop, heartbeat, bind, Prog.bind, Prog.pure, call, initT, millis, elapsed, reading,
        gateIndex, lastTick, firedWorld, idleWorld, gateTrace, getSeconds, postIncSeconds, setT, h]
  | some tv =>
    by_cases h : 1000 < sub32 (clock rd % UINT_MOD) tv
    · simp [loop, heartbeat, bind, Prog.bind, Prog.pure, call, initT, millis, elapsed, reading,
        gateIndex, lastTick, firedWorld, idleWorld, gateTrace, getSeconds, postIncSeconds, setT, h]
    · simp [loop, heartbeat, bind, Prog.bind, Prog.pure, call, initT, millis, elapsed, reading,
        gateIndex, lastTick, firedWorld, idleWorld, gateTrace, getSeconds, postIncSeconds, setT, h]

/-- A run of the loop never halts. -/
theorem runLoop_ok (sched : Nat → Nat → Nat) (n : Nat) (w : World) :
    (runLoop sched n w).1 = Except.ok () := by
  induction n with
  | zero => rfl
  | succ k ih =>
    show (Prog.bind (runLoop sched k) (fun _ => loop (sched k)) w).1 = Except.ok ()
    unfold Prog.bind
    rcases h : runLoop sched k w with ⟨r, w1⟩
    rw [h] at ih
    simp only at ih
    subst ih
    simp [loop_eq]

/-- The state after one more iteration. -/
theorem runLoop_succ (sched : Nat → Nat → Nat) (n : Nat) (w : World) :
    (runLoop sched (n + 1) w).2 =
      if 1000 < elapsed (sched n) (runLoop sched n w).2 then firedWorld (sched n) (runLoop sched n w).2
      else idleWorld (sched n) (runLoop sched n w).2 := by
  have hok := runLoop_ok sched n w
  show (Prog.bind (runLoop sched n) (fun _ => loop (sched n)) w).2 = _
  unfold Prog.bind
  rcases h : runLoop sched n w with ⟨r, w1⟩
  rw [h] at hok
  simp only at hok
  subst hok
  simp [loop_eq]

/-- Trace of a `setup()` whose k-th write is the first to fail. -/
theorem setup_abort (c : MPU6886_Class) (env : Env) (hi : env.imuInstance = true) (k : Nat)
    (h1 : 1 ≤ k) (h5 : k ≤ 5)
    (hw : ∀ j, j + 1 < k → env.writeRegister8 j = true) (hk : env.writeRegister8 (k - 1) = false) :
    setup c env World.boot = (Except.error Halt.assertFailed,
      { World.boot with trace := (setupTrace c).take (3 + 2 * k), writes := k }) := by
  have h0 := hw 0
  have h1 := hw 1
  have h2 := hw 2
  have h3 := hw 3
  interval_cases k
  · simp only [Nat.sub_self] at hk
    simp only [setup, bind, Prog.bind, call, Prog.pure, assert, halt, writeRegister8, World.boot, hi,
      hk, setupTrace, if_true, List.nil_append,
      List.append_assoc, List.cons_append, Nat.zero_add, Nat.reduceAdd]
    rfl
  · simp only [Nat.reduceSub] at hk
    simp only [setup, bind, Prog.bind, call, Prog.pure, assert, halt, writeRegister8, World.boot, hi,
      hk, h0 (by omega), setupTrace, if_true, List.nil_append,
      List.append_assoc, List.cons_append, Nat.zero_add, Nat.reduceAdd]
    rfl
  · simp only [Nat.reduceSub] at hk
    simp only [setup, bind, Prog.bind, call, Prog.pure, assert, halt, writeRegister8, World.boot, hi,
      hk, h0 (by omega), h1 (by omega), setupTrace, if_true, List.nil_append,
      List.append_assoc, List.cons_append, Nat.zero_add, Nat.reduceAdd]
    rfl
  · simp only [Nat.reduceSub] at hk
    simp only [setup, bind, Prog.bind, call, Prog.pure, assert, halt, writeRegister8, World.boot, hi,
      hk, h0 (by omega), h1 (by omega), h2 (by omega), setupTrace, if_true, List.nil_append,
      List.append_assoc, List.cons_append, Nat.zero_add, Nat.reduceAdd]
    rfl
  · simp only [Nat.reduceSub] at hk
    simp only [setup, bind, Prog.bind, call, Prog.pure, assert, halt, writeRegister8, World.boot, hi,
      hk, h0 (by omega), h1 (by omega), h2 (by omega), h3 (by omega), setupTrace, if_true, List.nil_append,
      List.append_assoc, List.cons_append, Nat.zero_add, Nat.reduceAdd]
    rfl

/-- The serial output of a concatenated trace. -/
theorem serialOut_append (a b : List Effect) : serialOut (a ++ b) = serialOut a ++ serialOut b := by
  induction a with
  | nil => rfl
  | cons e tl ih => cases e <;> simp [serialOut, ih]

/-- Up to the gate an iteration sends nothing to the serial port. -/
theorem serialOut_gateTrace (clock : Nat → Nat) (w : World) :
    serialOut (gateTrace clock w) = serialOut w.trace := by
  unfold gateTrace
  cases w.t <;> simp [serialOut_append, serialOut]

/-- An idle iteration sends nothing to the serial port. -/
theorem serialOut_idle (clock : Nat → Nat) (w : World) :
    serialOut (idleWorld clock w).trace = serialOut w.trace := by
  simp [idleWorld, serialOut_gateTrace]

/-- A firing iteration sends the counter, followed by a blank. -/
theorem serialOut_fired (clock : Nat → Nat) (w : World) :
    serialOut (firedWorld clock w).trace =
      serialOut w.trace ++ [toString (asInt w.seconds) ++ " "] := by
  simp [firedWorld, serialOut_append, serialOut_gateTrace, serialOut]

/-- A clock reading is a 32-bit value. -/
theorem reading_lt (clock : Nat → Nat) (k : Nat) : reading clock k < 4294967296 := by
  unfold reading UINT_MOD
  omega

/-- The readings of `slowClock` never decrease. -/
theorem mono_slow : Monotone (reading slowClock) := by
  have h : ∀ k, min (600 * k) 4000000000 % 4294967296 = min (600 * k) 4000000000 :=
    fun k => Nat.mod_eq_of_lt (by omega)
  intro a b hab
  simp only [reading, slowClock, UINT_MOD, h]
  omega

/-- The invariant holds at the first loop entry. -/
theorem inv_start (clock : Nat → Nat) (hm : Monotone (reading clock)) (w0 : World)
    (ht : w0.t = none) (hs : w0.seconds = 0) : HeartbeatInv clock w0 w0 := by
  refine ⟨le_refl _, ?_, ?_, ?_, ?_⟩
  · simp [lastTick, ht, hs]
  · simp only [lastTick, gateIndex, ht]
    exact hm (by omega)
  · simp [hs]
  · simp [hs]

/-- While the timestamp is not ahead of the clock, the 32-bit difference is
the true difference. -/
theorem elapsed_eq (clock : Nat → Nat) (w : World)
    (h : lastTick clock w ≤ reading clock (gateIndex w)) :
    elapsed clock w = reading clock (gateIndex w) - lastTick clock w := by
  have := reading_lt clock (gateIndex w)
  unfold elapsed sub32 UINT_MOD
  omega

/-- A counter below `2^31` is printed as it is. -/
theorem asInt_small (s : Nat) (h : s < 2147483648) : toString (asInt s) = toString s := by
  unfold asInt
  rw [if_pos h]
  rfl

/-- An idle iteration keeps the timestamp. -/
theorem lastTick_idle (clock : Nat → Nat) (w : World) :
    lastTick clock (idleWorld clock w) = lastTick clock w := rfl

/-- An idle iteration uses one clock reading at the gate. -/
theorem gateIndex_idle (clock : Nat → Nat) (w : World) :
    gateIndex (idleWorld clock w) = gateIndex w + 1 := rfl

/-- A firing iteration sets the timestamp to the reading after the gate. -/
theorem lastTick_fired (clock : Nat → Nat) (w : World) :
    lastTick clock (firedWorld clock w) = reading clock (gateIndex w + 1) := rfl

/-- A firing iteration uses two clock readings from the gate on. -/
theorem gateIndex_fired (clock : Nat → Nat) (w : World) :
    gateIndex (firedWorld clock w) = gateIndex w + 2 := rfl

/-- One iteration under a monotone clock keeps the invariant; when it fires,
the counter does not wrap and more than 1000 time-units have truly elapsed. -/
theorem inv_step (clock : Nat → Nat) (hm : Monotone (reading clock)) (w0 w : World)
    (hi : HeartbeatInv clock w0 w) :
    HeartbeatInv clock w0
      (if 1000 < elapsed clock w then firedWorld clock w else idleWorld clock w) ∧
    (1000 < elapsed clock w → (w.seconds + 1) % UINT_MOD = w.seconds + 1 ∧
      lastTick clock w + 1000 < reading clock (gateIndex w)) := by
  obtain ⟨h1, h2, h3, h4, h5⟩ := hi
  have hel := elapsed_eq clock w h3
  have hg : w.reads ≤ gateIndex w := by
    unfold gateIndex
    cases w.t <;> simp
  have hlt1 := reading_lt clock (gateIndex w + 1)
  have hm1 : reading clock (gateIndex w) ≤ reading clock (gateIndex w + 1) := hm (by omega)
  have hm2 : reading clock (gateIndex w + 1) ≤ reading clock (gateIndex w + 2) := hm (by omega)
  have hm3 : reading clock (w.reads - 1) ≤ reading clock (gateIndex w) := hm (by omega)
  by_cases h : 1000 < elapsed clock w
  · have hsec : (w.seconds + 1) % UINT_MOD = w.seconds + 1 := by
      apply Nat.mod_eq_of_lt
      unfold UINT_MOD
      omega
    refine ⟨?_, fun _ => ⟨hsec, by omega⟩⟩
    rw [if_pos h]
    refine ⟨?_, ?_, ?_, ?_, ?_⟩
    · show w0.reads ≤ gateIndex w + 2
      omega
    · rw [lastTick_fired]
      show reading clock w0.reads + 1001 * ((w.seconds + 1) % UINT_MOD) ≤ _
      rw [hsec]; omega
    · rw [lastTick_fired, gateIndex_fired]; exact hm2
    · show 1001 * ((w.seconds + 1) % UINT_MOD) ≤
        reading clock (gateIndex w + 2 - 1) - reading clock w0.reads
      have : gateIndex w + 2 - 1 = gateIndex w + 1 := by omega
      rw [this, hsec]; omega
    · rw [serialOut_fired, h5]
      show _ = serialOut w0.trace ++
        (List.range ((w.seconds + 1) % UINT_MOD)).map (fun j => toString j ++ " ")
      rw [hsec, List.range_succ, List.map_append, List.map_cons, List.map_nil,
        List.append_assoc, asInt_small w.seconds (by omega)]
  · refine ⟨?_, fun h' => absurd h' h⟩
    rw [if_neg h]
    refine ⟨?_, ?_, ?_, ?_, ?_⟩
    · show w0.reads ≤ gateIndex w + 1
      omega
    · rw [lastTick_idle]; exact h2
    · rw [lastTick_idle, gateIndex_idle]; omega
    · show 1001 * w.seconds ≤ reading clock (gateIndex w + 1 - 1) - reading clock w0.reads
      have : gateIndex w + 1 - 1 = gateIndex w := by omega
      rw [this]; omega
    · rw [serialOut_idle]; exact h5

/-- The invariant holds after every number of iterations. -/
theorem inv_run (clock : Nat → Nat) (hm : Monotone (reading clock)) (w0 : World)
    (ht : w0.t = none) (hs : w0.seconds = 0) (n : Nat) :
    HeartbeatInv clock w0 (runLoop (fun _ => clock) n w0).2 := by
  induction n with
  | zero => exact inv_start clock hm w0 ht hs
  | succ k ih =>
    rw [runLoop_succ]
    exact (inv_step clock hm w0 _ ih).1


/-- The gate of an iteration whose timestamp is already initialised. -/
theorem elapsed_some (clock : Nat → Nat) (w : World) (tv : Nat) (h : w.t = some tv) :
    elapsed clock w = sub32 (reading clock w.reads) tv ∧ gateIndex w = w.reads ∧
    lastTick clock w = tv := by
  simp [elapsed, gateIndex, lastTick, h]

/-- Closed form of the state after `k + 1` iterations of a loop that runs one
iteration per time-unit: a heartbeat every 1001 iterations. -/
theorem run_everyTimeUnit (T0 : Nat) (w0 : World) (ht : w0.t = none) (hs : w0.seconds = 0)
    (k : Nat) :
    (runLoop (everyTimeUnit T0) (k + 1) w0).2.t = some ((T0 + 1001 * (k / 1001)) % UINT_MOD) ∧
    (runLoop (everyTimeUnit T0) (k + 1) w0).2.seconds = (k / 1001) % UINT_MOD ∧
    serialOut (runLoop (everyTimeUnit T0) (k + 1) w0).2.trace =
      serialOut w0.trace ++
        (List.range (k / 1001)).map (fun j => toString (asInt (j % UINT_MOD)) ++ " ") := by
  induction k with
  | zero =>
    rw [runLoop_succ]
    have hw : (runLoop (everyTimeUnit T0) 0 w0).2 = w0 := rfl
    rw [hw]
    have he : elapsed (everyTimeUnit T0 0) w0 = 0 := by
      simp only [elapsed, gateIndex, lastTick, ht, reading, everyTimeUnit, sub32, UINT_MOD]
      omega
    have hn : ¬ 1000 < elapsed (everyTimeUnit T0 0) w0 := by omega
    rw [if_neg hn]
    refine ⟨?_, ?_, ?_⟩
    · show some (lastTick (everyTimeUnit T0 0) w0) = _
      simp [lastTick, ht, reading, everyTimeUnit]
    · show w0.seconds = _
      simp [hs]
    · rw [serialOut_idle]
      simp
  | succ k ih =>
    obtain ⟨iht, ihs, iho⟩ := ih
    rw [runLoop_succ]
    generalize (runLoop (everyTimeUnit T0) (k + 1) w0).2 = w at iht ihs iho ⊢
    obtain ⟨he, hg, hl⟩ := elapsed_some (everyTimeUnit T0 (k + 1)) w _ iht
    have hr : ∀ j, reading (everyTimeUnit T0 (k + 1)) j = (T0 + (k + 1)) % UINT_MOD := fun _ => rfl
    rw [hr] at he
    by_cases h : 1000 < elapsed (everyTimeUnit T0 (k + 1)) w
    · rw [if_pos h]
      have hdiv : (k + 1) / 1001 = k / 1001 + 1 := by
        rw [he] at h
        unfold sub32 UINT_MOD at h
        omega
      refine ⟨?_, ?_, ?_⟩
      · show some (reading (everyTimeUnit T0 (k + 1)) (gateIndex w + 1)) = _
        rw [hr, hdiv]
        rw [he] at h
        unfold sub32 UINT_MOD at h
        unfold UINT_MOD
        refine congrArg some ?_
        omega
      · show (w.seconds + 1) % UINT_MOD = _
        rw [ihs, hdiv]
        unfold UINT_MOD
        omega
      · rw [serialOut_fired, iho, hdiv, List.range_succ, List.map_append, List.map_cons,
          List.map_nil, List.append_assoc, ihs]
    · rw [if_neg h]
      have hdiv : (k + 1) / 1001 = k / 1001 := by
        rw [he] at h
        unfold sub32 UINT_MOD at h
        omega
      refine ⟨?_, ?_, ?_⟩
      · show some (lastTick (everyTimeUnit T0 (k + 1)) w) = _
        rw [hl, hdiv]
      · show w.seconds = _
        rw [ihs, hdiv]
      · rw [serialOut_idle, iho, hdiv]

/-- The loop makes no call into the BLE stack. -/
theorem advertiser_run (sched : Nat → Nat → Nat) (n : Nat) (w0 : World) :
    (runLoop sched n w0).2.trace.filter Effect.isAdvertiser =
      w0.trace.filter Effect.isAdvertiser := by
  induction n with
  | zero => rfl
  | succ k ih =>
    rw [runLoop_succ]
    generalize (runLoop sched k w0).2 = w at ih ⊢
    rw [← ih]
    split
    · simp only [firedWorld, gateTrace]
      cases w.t <;> simp [List.filter_append, List.filter, Effect.isAdvertiser]
    · simp only [idleWorld, gateTrace]
      cases w.t <;> simp [List.filter_append, List.filter, Effect.isAdvertiser]

/-- After a successful `setup()` the program runs the loop from `setupWorld`. -/
theorem sketch_success (c : MPU6886_Class) (env : Env) (sched : Nat → Nat → Nat) (n : Nat)
    (hi : env.imuInstance = true) (hw : ∀ k, k < 5 → env.writeRegister8 k = true) :
    sketch c env sched n World.boot = runLoop sched n (setupWorld c) := by
  show Prog.bind (setup c env) (fun _ => runLoop sched n) World.boot = _
  unfold Prog.bind
  rw [setup_success c env hi hw]

/-- A successful `setup()` sends nothing to the serial port. -/
theorem serialOut_setup (c : MPU6886_Class) : serialOut (setupWorld c).trace = [] := by
  simp [setupWorld, setupTrace, serialOut]


/-- Claim C1: when the device handle is valid and the five register writes
succeed, the register writes of `setup()` are exactly the five writes
(GYRO_CONFIG, GFS_250DPS << 3), (ACCEL_CONFIG, AFS_2G << 3), (SMPLRT_DIV, 0),
(CONFIG, 5), (ACCEL_CONFIG2, 5), in that order, and each write is followed by
a `delay(10)` before the next write is issued. -/
theorem setup_bringup_sequence (c : MPU6886_Class) (env : Env) (hi : env.imuInstance = true)
    (hw : ∀ k, k < 5 → env.writeRegister8 k = true) :
    (setup c env World.boot).2.trace.filter Effect.isBringUp =
      [Effect.writeRegister8 c.REG_GYRO_CONFIG (c.GFS_250DPS <<< 3), Effect.delay 10,
       Effect.writeRegister8 c.REG_ACCEL_CONFIG (c.AFS_2G <<< 3), Effect.delay 10,
       Effect.writeRegister8 c.REG_SMPLRT_DIV 0x00, Effect.delay 10,
       Effect.writeRegister8 c.REG_CONFIG 0x05, Effect.delay 10,
       Effect.writeRegister8 c.REG_ACCEL_CONFIG2 (5 ||| 0 <<< 3 ||| 0 <<< 4), Effect.delay 10] ∧
    (setup c env World.boot).2.trace.filter Effect.isWrite = bringUpTable c ∧
    (5 ||| 0 <<< 3 ||| 0 <<< 4 : Nat) = 5 ∧
    (setup c env World.boot).1 = Except.ok () := by
  rw [setup_success c env hi hw]
  refine ⟨?_, ?_, by decide, rfl⟩
  · simp [setupWorld, setupTrace, List.filter, Effect.isBringUp]
  · simp [setupWorld, setupTrace, bringUpTable, List.filter, Effect.isWrite]

/-- Witness of C1: the register map of the MPU6886 and a transport on which
every write succeeds. -/
theorem setup_bringup_sequence_witness :
    goodEnv.imuInstance = true ∧ goodEnv.writeRegister8 0 = true ∧
    goodEnv.writeRegister8 4 = true ∧
    (setup exampleMpu goodEnv World.boot).2.trace.filter Effect.isWrite =
      bringUpTable exampleMpu ∧
    (setup exampleMpu goodEnv World.boot).1 = Except.ok () :=
  ⟨rfl, rfl, rfl,
    (setup_bringup_sequence exampleMpu goodEnv rfl (fun _ _ => rfl)).2.1,
    (setup_bringup_sequence exampleMpu goodEnv rfl (fun _ _ => rfl)).2.2.2⟩

/-- Claim C2: if the k-th bring-up write (k in 1..5) is the first to fail,
`setup()` stops with the failed assertion: its trace is the trace of a good
run cut right after the k-th write, so the register writes are exactly
writes 1..k, the k-th write is the last effect, no BLE call is made, and the
whole program ends there without entering the loop. -/
theorem setup_aborts_on_failed_write (c : MPU6886_Class) (env : Env) (sched : Nat → Nat → Nat)
    (n k : Nat) (hi : env.imuInstance = true) (h1 : 1 ≤ k) (h5 : k ≤ 5)
    (hw : ∀ j, j + 1 < k → env.writeRegister8 j = true)
    (hk : env.writeRegister8 (k - 1) = false) :
    (setup c env World.boot).1 = Except.error Halt.assertFailed ∧
    (setup c env World.boot).2.trace = (setupTrace c).take (3 + 2 * k) ∧
    (setup c env World.boot).2.trace.filter Effect.isWrite = (bringUpTable c).take k ∧
    (setup c env World.boot).2.trace.getLast? = (bringUpTable c)[k - 1]? ∧
    (setup c env World.boot).2.trace.filter Effect.isAdvertiser = [] ∧
    sketch c env sched n World.boot = setup c env World.boot := by
  have hs := setup_abort c env hi k h1 h5 hw hk
  have hsk : sketch c env sched n World.boot = setup c env World.boot := by
    show Prog.bind (setup c env) (fun _ => runLoop sched n) World.boot = _
    unfold Prog.bind
    rw [hs]
  refine ⟨?_, ?_, ?_, ?_, ?_, hsk⟩
  · rw [hs]
  · rw [hs]
  · rw [hs]
    interval_cases k <;>
      simp [setupTrace, bringUpTable, List.filter, Effect.isWrite]
  · rw [hs]
    interval_cases k <;>
      simp [setupTrace, bringUpTable]
  · rw [hs]
    interval_cases k <;>
      simp [setupTrace, List.filter, Effect.isAdvertiser]

/-- Witness of C2: the third write fails. -/
theorem setup_aborts_on_failed_write_witness :
    thirdWriteFails.imuInstance = true ∧
    thirdWriteFails.writeRegister8 0 = true ∧ thirdWriteFails.writeRegister8 1 = true ∧
    thirdWriteFails.writeRegister8 (3 - 1) = false ∧
    (setup exampleMpu thirdWriteFails World.boot).1 = Except.error Halt.assertFailed ∧
    (setup exampleMpu thirdWriteFails World.boot).2.trace =
      (setupTrace exampleMpu).take (3 + 2 * 3) ∧
    (setup exampleMpu thirdWriteFails World.boot).2.trace.filter Effect.isWrite =
      (bringUpTable exampleMpu).take 3 ∧
    (setup exampleMpu thirdWriteFails World.boot).2.trace.getLast? =
      (bringUpTable exampleMpu)[3 - 1]? ∧
    (setup exampleMpu thirdWriteFails World.boot).2.trace.filter Effect.isAdvertiser = [] ∧
    sketch exampleMpu thirdWriteFails (everyTimeUnit 0) 10 World.boot =
      setup exampleMpu thirdWriteFails World.boot :=
  ⟨rfl, rfl, rfl, rfl,
   setup_aborts_on_failed_write exampleMpu thirdWriteFails (everyTimeUnit 0) 10 3 rfl
      (by decide) (by decide)
      (by intro j hj; have hj2 : j < 2 := by omega
          interval_cases j <;> rfl) rfl⟩
/-- Claim C3: a successful `setup()` calls `createCharacteristic` exactly
seven times, with the UUID strings "1000" to "1006" in ascending order (the
decimal rendering of i for i = 1000..1006), each time with properties 0. -/
theorem setup_creates_seven_characteristics (c : MPU6886_Class) (env : Env)
    (hi : env.imuInstance = true) (hw : ∀ k, k < 5 → env.writeRegister8 k = true) :
    (setup c env World.boot).1 = Except.ok () ∧
    (setup c env World.boot).2.trace.filter Effect.isCharacteristic =
      [Effect.createCharacteristic "1000" 0, Effect.createCharacteristic "1001" 0,
       Effect.createCharacteristic "1002" 0, Effect.createCharacteristic "1003" 0,
       Effect.createCharacteristic "1004" 0, Effect.createCharacteristic "1005" 0,
       Effect.createCharacteristic "1006" 0] ∧
    (setup c env World.boot).2.trace.filter Effect.isCharacteristic =
      (List.range 7).map (fun j => Effect.createCharacteristic (to_string ((1000 + j : Nat) : Int)) 0) ∧
    ((setup c env World.boot).2.trace.filter Effect.isCharacteristic).length = 7 := by
  rw [setup_success c env hi hw]
  have hf : (setupWorld c).trace.filter Effect.isCharacteristic =
      [Effect.createCharacteristic "1000" 0, Effect.createCharacteristic "1001" 0,
       Effect.createCharacteristic "1002" 0, Effect.createCharacteristic "1003" 0,
       Effect.createCharacteristic "1004" 0, Effect.createCharacteristic "1005" 0,
       Effect.createCharacteristic "1006" 0] := by
    simp [setupWorld, setupTrace, List.filter, Effect.isCharacteristic]
  refine ⟨rfl, hf, ?_, ?_⟩
  · show (setupWorld c).trace.filter Effect.isCharacteristic = _
    rw [hf]
    decide
  · show ((setupWorld c).trace.filter Effect.isCharacteristic).length = 7
    rw [hf]
    rfl

/-- Witness of C3: the register map of the MPU6886 and a transport on which
every write succeeds. -/
theorem setup_creates_seven_characteristics_witness :
    goodEnv.imuInstance = true ∧ goodEnv.writeRegister8 1 = true ∧
    (setup exampleMpu goodEnv World.boot).2.trace.filter Effect.isCharacteristic =
      [Effect.createCharacteristic "1000" 0, Effect.createCharacteristic "1001" 0,
       Effect.createCharacteristic "1002" 0, Effect.createCharacteristic "1003" 0,
       Effect.createCharacteristic "1004" 0, Effect.createCharacteristic "1005" 0,
       Effect.createCharacteristic "1006" 0] :=
  ⟨rfl, rfl,
    (setup_creates_seven_characteristics exampleMpu goodEnv rfl (fun _ _ => rfl)).2.1⟩

/-- Claim C8: the effect trace of a successful `setup()`: board-support
initialisation first, then the five register writes with their delays, then
`init("I2C Bug")`, `createServer`, `createService("6A5B")`, the
characteristic creations, the service start and `startAdvertising`.  Each
advertiser call other than the characteristic creations occurs once, none
precedes the last bring-up write, and `startAdvertising` is the last effect. -/
theorem setup_effect_order (c : MPU6886_Class) (env : Env)
    (hi : env.imuInstance = true) (hw : ∀ k, k < 5 → env.writeRegister8 k = true) :
    (setup c env World.boot).1 = Except.ok () ∧
    (setup c env World.boot).2.trace =
      [Effect.config, Effect.begin, Effect.setRotation 3, Effect.setTextSize 3,
       Effect.writeRegister8 c.REG_GYRO_CONFIG (c.GFS_250DPS <<< 3), Effect.delay 10,
       Effect.writeRegister8 c.REG_ACCEL_CONFIG (c.AFS_2G <<< 3), Effect.delay 10,
       Effect.writeRegister8 c.REG_SMPLRT_DIV 0, Effect.delay 10,
       Effect.writeRegister8 c.REG_CONFIG 5, Effect.delay 10,
       Effect.writeRegister8 c.REG_ACCEL_CONFIG2 5, Effect.delay 10,
       Effect.bleInit "I2C Bug", Effect.createServer, Effect.createService "6A5B",
       Effect.createCharacteristic "1000" 0, Effect.createCharacteristic "1001" 0,
       Effect.createCharacteristic "1002" 0, Effect.createCharacteristic "1003" 0,
       Effect.createCharacteristic "1004" 0, Effect.createCharacteristic "1005" 0,
       Effect.createCharacteristic "1006" 0, Effect.serviceStart, Effect.startAdvertising] ∧
    ((setup c env World.boot).2.trace.take 14).filter Effect.isAdvertiser = [] ∧
    ((setup c env World.boot).2.trace.drop 14).filter Effect.isBringUp = [] ∧
    ((setup c env World.boot).2.trace.take 4).filter Effect.isBringUp = [] ∧
    ((setup c env World.boot).2.trace.filter Effect.isAdvertiser).filter
        (fun e => !Effect.isCharacteristic e) =
      [Effect.bleInit "I2C Bug", Effect.createServer, Effect.createService "6A5B",
       Effect.serviceStart, Effect.startAdvertising] ∧
    (setup c env World.boot).2.trace.getLast? = some Effect.startAdvertising := by
  rw [setup_success c env hi hw]
  refine ⟨rfl, rfl, ?_, ?_, ?_, ?_, ?_⟩ <;>
    simp [setupWorld, setupTrace, List.filter, Effect.isAdvertiser, Effect.isBringUp,
      Effect.isCharacteristic]


/-- Witness of C8: the register map of the MPU6886 and a transport on which
every write succeeds. -/
theorem setup_effect_order_witness :
    goodEnv.imuInstance = true ∧ goodEnv.writeRegister8 2 = true ∧
    (setup exampleMpu goodEnv World.boot).1 = Except.ok () ∧
    (setup exampleMpu goodEnv World.boot).2.trace.getLast? = some Effect.startAdvertising :=
  ⟨rfl, rfl,
    (setup_effect_order exampleMpu goodEnv rfl (fun _ _ => rfl)).1,
    (setup_effect_order exampleMpu goodEnv rfl (fun _ _ => rfl)).2.2.2.2.2.2⟩

/-- Claim C10: the heartbeat gate is safe against wrap-around of the
millisecond clock.  If the timestamp is `t` and the true time of the reading
is `t + d` with `d < 2^32`, so that `millis()` returns `(t + d) mod 2^32`,
the 32-bit difference is `d` and the gate is open exactly when `d > 1000`;
the iteration of `loop()` then fires or idles accordingly. -/
theorem gate_wraparound_safe (clock : Nat → Nat) (w : World) (t d : Nat)
    (hd : d < 4294967296) (hw : w.t = some t)
    (hc : clock w.reads = t + d) :
    (1000 < sub32 ((t + d) % UINT_MOD) t ↔ 1000 < d) ∧
    elapsed clock w = d ∧
    (loop clock w).2 = if 1000 < d then firedWorld clock w else idleWorld clock w := by
  have he : elapsed clock w = d := by
    rw [(elapsed_some clock w t hw).1]
    unfold reading
    rw [hc]
    unfold sub32 UINT_MOD
    omega
  refine ⟨?_, he, ?_⟩
  · unfold sub32 UINT_MOD
    omega
  · rw [loop_eq, he]

/-- Witness of C10: the clock wraps between the timestamp and the reading. -/
theorem gate_wraparound_safe_witness :
    (2000 : Nat) < 4294967296 ∧
    tickedBeforeWrap.t = some 4294967000 ∧
    clockAfterWrap tickedBeforeWrap.reads = 4294967000 + 2000 ∧
    reading clockAfterWrap tickedBeforeWrap.reads = 1704 ∧
    ((1000 < sub32 ((4294967000 + 2000) % UINT_MOD) 4294967000 ↔ 1000 < 2000) ∧
     elapsed clockAfterWrap tickedBeforeWrap = 2000 ∧
     (loop clockAfterWrap tickedBeforeWrap).2 =
       if 1000 < 2000 then firedWorld clockAfterWrap tickedBeforeWrap
       else idleWorld clockAfterWrap tickedBeforeWrap) :=
  ⟨by decide, rfl, rfl, by decide,
    gate_wraparound_safe clockAfterWrap tickedBeforeWrap 4294967000 2000 (by decide) rfl rfl⟩

/-- Claim C7: in every iteration of `loop()`, fired or idle, the IMU refresh
is the first effect and occurs once: the iteration is the refresh followed by
the rest of the function run on a state that differs only by that effect,
and everything that follows in the trace is a clock read, a display write or
a serial write. -/
theorem loop_refresh_first (clock : Nat → Nat) (w : World) :
    (loop clock w).1 = Except.ok () ∧
    loop clock w = afterUpdate clock { w with trace := w.trace ++ [Effect.imuUpdate] } ∧
    ∃ rest, (loop clock w).2.trace = w.trace ++ Effect.imuUpdate :: rest ∧
      rest.all Effect.isHeartbeat = true ∧ rest.count Effect.imuUpdate = 0 := by
  refine ⟨by rw [loop_eq], rfl, ?_⟩
  rw [loop_eq]
  by_cases h : 1000 < elapsed clock w
  · simp only [h, if_true, firedWorld, gateTrace]
    cases w.t with
    | none => exact ⟨_, by simp only [List.append_assoc, List.cons_append, List.nil_append,
          List.singleton_append]; rfl, by simp [Effect.isHeartbeat], by simp⟩
    | some tv => exact ⟨_, by simp only [List.append_assoc, List.cons_append, List.nil_append,
          List.singleton_append]; rfl, by simp [Effect.isHeartbeat], by simp⟩
  · simp only [h, if_false, idleWorld, gateTrace]
    cases w.t with
    | none => exact ⟨_, by simp only [List.append_assoc, List.cons_append, List.nil_append,
          List.singleton_append]; rfl, by simp [Effect.isHeartbeat], by simp⟩
    | some tv => exact ⟨_, by simp only [List.append_assoc, List.cons_append, List.nil_append,
          List.singleton_append]; rfl, by simp [Effect.isHeartbeat], by simp⟩

/-- Counterexample to C5: with exactly 1000 time-units elapsed the iteration
refreshes the IMU and reads the clock, and does nothing else: nothing is
displayed or sent, the counter and the timestamp stay as they were. -/
theorem loop_idle_when_elapsed_is_1000 :
    tickedAtZero.t = some 0 ∧ reading clockAt1000 tickedAtZero.reads = 1000 ∧
    elapsed clockAt1000 tickedAtZero = 1000 ∧
    loop clockAt1000 tickedAtZero = (Except.ok (),
      { tickedAtZero with trace := [Effect.imuUpdate, Effect.millis 1000], reads := 8 }) ∧
    serialOut (loop clockAt1000 tickedAtZero).2.trace = [] ∧
    (loop clockAt1000 tickedAtZero).2.seconds = tickedAtZero.seconds ∧
    (loop clockAt1000 tickedAtZero).2.t = tickedAtZero.t :=
  ⟨rfl, by decide, by decide, rfl, by decide, by decide, by decide⟩

/-- Claim C5, amended: an iteration of `loop()` performs the heartbeat
actions (cursor to (60,60), counter on the display, counter on the serial
port, increment, timestamp reset from a fresh clock read) if strictly more
than 1000 time-units have elapsed, and none of them otherwise: up to the gate
an iteration only refreshes the IMU and reads the clock. -/
theorem loop_fires_iff_elapsed_gt_1000 (clock : Nat → Nat) (w : World) :
    loop clock w = (Except.ok (),
      if 1000 < elapsed clock w then
        { trace := gateTrace clock w ++
            [Effect.setCursor 60 60,
             Effect.displayPrintf (toString (asInt w.seconds) ++ "      "),
             Effect.serialPrintf (toString (asInt w.seconds) ++ " "),
             Effect.millis (reading clock (gateIndex w + 1))],
          writes := w.writes,
          reads := gateIndex w + 2,
          seconds := (w.seconds + 1) % UINT_MOD,
          t := some (reading clock (gateIndex w + 1)) }
      else
        { trace := gateTrace clock w,
          writes := w.writes,
          reads := gateIndex w + 1,
          seconds := w.seconds,
          t := some (lastTick clock w) }) ∧
    (gateTrace clock w).filter
        (fun e => e matches Effect.setCursor _ _ | Effect.displayPrintf _ | Effect.serialPrintf _)
      = w.trace.filter
        (fun e => e matches Effect.setCursor _ _ | Effect.displayPrintf _ | Effect.serialPrintf _) := by
  refine ⟨loop_eq clock w, ?_⟩
  unfold gateTrace
  cases w.t <;> simp [List.filter_append, List.filter]


/-- Claim C9: drift bound.  Under a monotone clock, with `t0` the timestamp
latched at the first loop entry, the counter satisfies
`counter * 1001 ≤ now - t0` at every point of the run, where `now` is the
latest clock reading.  An iteration that fires saw more than 1000 time-units
since the timestamp, and it sets the timestamp to a fresh clock reading taken
after the display and serial output, at least 1001 after the old one. -/
theorem heartbeat_drift_bound (clock : Nat → Nat) (hm : Monotone (reading clock))
    (w0 : World) (ht : w0.t = none) (hs : w0.seconds = 0) (n : Nat) :
    (runLoop (fun _ => clock) n w0).2.seconds * 1001 ≤
      reading clock ((runLoop (fun _ => clock) n w0).2.reads - 1) - reading clock w0.reads ∧
    reading clock w0.reads + (runLoop (fun _ => clock) n w0).2.seconds * 1001 ≤
      lastTick clock (runLoop (fun _ => clock) n w0).2 ∧
    ((runLoop (fun _ => clock) (n + 1) w0).2.seconds ≠ (runLoop (fun _ => clock) n w0).2.seconds →
      lastTick clock (runLoop (fun _ => clock) n w0).2 + 1000 <
        reading clock (gateIndex (runLoop (fun _ => clock) n w0).2) ∧
      (runLoop (fun _ => clock) (n + 1) w0).2.t =
        some (reading clock (gateIndex (runLoop (fun _ => clock) n w0).2 + 1)) ∧
      lastTick clock (runLoop (fun _ => clock) n w0).2 + 1001 ≤
        lastTick clock (runLoop (fun _ => clock) (n + 1) w0).2 ∧
      (runLoop (fun _ => clock) (n + 1) w0).2.trace =
        gateTrace clock (runLoop (fun _ => clock) n w0).2 ++
          [Effect.setCursor 60 60,
           Effect.displayPrintf
             (toString (asInt (runLoop (fun _ => clock) n w0).2.seconds) ++ "      "),
           Effect.serialPrintf
             (toString (asInt (runLoop (fun _ => clock) n w0).2.seconds) ++ " "),
           Effect.millis (reading clock (gateIndex (runLoop (fun _ => clock) n w0).2 + 1))]) := by
  have hinv := inv_run clock hm w0 ht hs n
  have hstep := (inv_step clock hm w0 _ hinv).2
  refine ⟨?_, ?_, ?_⟩
  · have := hinv.now_le
    omega
  · have := hinv.drift
    omega
  · rw [runLoop_succ]
    generalize (runLoop (fun _ => clock) n w0).2 = w at hinv hstep ⊢
    by_cases h : 1000 < elapsed clock w
    · rw [if_pos h]
      intro _
      have hm1 : reading clock (gateIndex w) ≤ reading clock (gateIndex w + 1) := hm (by omega)
      refine ⟨(hstep h).2, rfl, ?_, rfl⟩
      rw [lastTick_fired]
      have := (hstep h).2
      omega
    · rw [if_neg h]
      intro hne
      exact absurd rfl hne

/-- Witness of C9: a clock that advances 600 time-units per reading. -/
theorem heartbeat_drift_bound_witness :
    Monotone (reading slowClock) ∧ World.boot.t = none ∧ World.boot.seconds = 0 ∧
    (runLoop (fun _ => slowClock) 4 World.boot).2.seconds = 2 ∧
    (runLoop (fun _ => slowClock) 4 World.boot).2.seconds * 1001 ≤
      reading slowClock ((runLoop (fun _ => slowClock) 4 World.boot).2.reads - 1) -
        reading slowClock World.boot.reads ∧
    lastTick slowClock (runLoop (fun _ => slowClock) 1 World.boot).2 + 1001 ≤
        lastTick slowClock (runLoop (fun _ => slowClock) (1 + 1) World.boot).2 :=
  ⟨mono_slow, rfl, rfl, by decide,
    (heartbeat_drift_bound slowClock mono_slow World.boot rfl rfl 4).1,
    ((heartbeat_drift_bound slowClock mono_slow World.boot rfl rfl 1).2.2 (by decide)).2.2.1⟩


/-- Counterexample to C6: after a successful `setup()`, a loop that runs one
iteration per time-unit from time 0 to time 5000 ends with the counter at 4,
and the serial port has shown "0 1 2 3 ". -/
theorem sketch_counter_is_4_after_5000 :
    goodEnv.imuInstance = true ∧
    (sketch exampleMpu goodEnv (everyTimeUnit 0) 5001 World.boot).1 = Except.ok () ∧
    (sketch exampleMpu goodEnv (everyTimeUnit 0) 5001 World.boot).2.seconds = 4 ∧
    (sketch exampleMpu goodEnv (everyTimeUnit 0) 5001 World.boot).2.seconds ≠ 5 ∧
    String.join (serialOut (sketch exampleMpu goodEnv (everyTimeUnit 0) 5001 World.boot).2.trace)
      = "0 1 2 3 " ∧
    String.join (serialOut (sketch exampleMpu goodEnv (everyTimeUnit 0) 5001 World.boot).2.trace)
      ≠ "0 1 2 3 4 " := by
  have hs := sketch_success exampleMpu goodEnv (everyTimeUnit 0) 5001 rfl (fun _ _ => rfl)
  obtain ⟨_, h2, h3⟩ := run_everyTimeUnit 0 (setupWorld exampleMpu) rfl rfl 5000
  have e4 : (5000 / 1001 : Nat) = 4 := by decide
  rw [e4] at h2 h3
  have hsec : (sketch exampleMpu goodEnv (everyTimeUnit 0) 5001 World.boot).2.seconds = 4 := by
    rw [hs, h2]
    decide
  have hout : String.join
      (serialOut (sketch exampleMpu goodEnv (everyTimeUnit 0) 5001 World.boot).2.trace)
      = "0 1 2 3 " := by
    rw [hs, h3, serialOut_setup]
    decide
  refine ⟨rfl, ?_, hsec, ?_, hout, ?_⟩
  · rw [hs]
    exact runLoop_ok _ _ _
  · rw [hsec]
    decide
  · rw [hout]
    decide

/-- Claim C6, amended: with a valid device handle and five successful
writes, `setup()` completes, the advertiser is started with service "6A5B"
and the seven characteristics, and a loop that runs one iteration per
time-unit from time `T0` to time `T0 + 5000` ends with the counter at 4 and
the serial output "0 1 2 3 ".  The counter is still 4 after the iteration at
time `T0 + 5004`; the fifth heartbeat comes with the iteration at time
`T0 + 5005`. -/
theorem sketch_end_to_end (c : MPU6886_Class) (env : Env) (T0 : Nat)
    (hi : env.imuInstance = true) (hw : ∀ k, k < 5 → env.writeRegister8 k = true) :
    (setup c env World.boot).1 = Except.ok () ∧
    (sketch c env (everyTimeUnit T0) 5001 World.boot).1 = Except.ok () ∧
    (sketch c env (everyTimeUnit T0) 5001 World.boot).2.trace.filter Effect.isAdvertiser =
      [Effect.bleInit "I2C Bug", Effect.createServer, Effect.createService "6A5B",
       Effect.createCharacteristic "1000" 0, Effect.createCharacteristic "1001" 0,
       Effect.createCharacteristic "1002" 0, Effect.createCharacteristic "1003" 0,
       Effect.createCharacteristic "1004" 0, Effect.createCharacteristic "1005" 0,
       Effect.createCharacteristic "1006" 0, Effect.serviceStart, Effect.startAdvertising] ∧
    (sketch c env (everyTimeUnit T0) 5001 World.boot).2.seconds = 4 ∧
    String.join (serialOut (sketch c env (everyTimeUnit T0) 5001 World.boot).2.trace)
      = "0 1 2 3 " ∧
    (sketch c env (everyTimeUnit T0) 5006 World.boot).2.seconds = 5 ∧
    String.join (serialOut (sketch c env (everyTimeUnit T0) 5006 World.boot).2.trace)
      = "0 1 2 3 4 " ∧
    (sketch c env (everyTimeUnit T0) 5005 World.boot).2.seconds = 4 := by
  have hs := sketch_success c env (everyTimeUnit T0) 5001 hi hw
  have hs6 := sketch_success c env (everyTimeUnit T0) 5006 hi hw
  obtain ⟨_, h2, h3⟩ := run_everyTimeUnit T0 (setupWorld c) rfl rfl 5000
  obtain ⟨_, k2, k3⟩ := run_everyTimeUnit T0 (setupWorld c) rfl rfl 5005
  have e4 : (5000 / 1001 : Nat) = 4 := by decide
  have e5 : (5005 / 1001 : Nat) = 5 := by decide
  rw [e4] at h2 h3
  rw [e5] at k2 k3
  have hs5 := sketch_success c env (everyTimeUnit T0) 5005 hi hw
  have j2 := (run_everyTimeUnit T0 (setupWorld c) rfl rfl 5004).2.1
  have e4b : (5004 / 1001 : Nat) = 4 := by decide
  rw [e4b] at j2
  refine ⟨?_, ?_, ?_, ?_, ?_, ?_, ?_, by rw [hs5, j2]; decide⟩
  · rw [setup_success c env hi hw]
  · rw [hs]
    exact runLoop_ok _ _ _
  · rw [hs, advertiser_run]
    simp [setupWorld, setupTrace, List.filter, Effect.isAdvertiser]
  · rw [hs, h2]
    decide
  · rw [hs, h3, serialOut_setup]
    decide
  · rw [hs6, k2]
    decide
  · rw [hs6, k3, serialOut_setup]
    decide

/-- Witness of C6: the loop is entered 1296 time-units before the clock
wraps. -/
theorem sketch_end_to_end_witness :
    goodEnv.imuInstance = true ∧ goodEnv.writeRegister8 0 = true ∧
    (sketch exampleMpu goodEnv (everyTimeUnit 4294966000) 5001 World.boot).2.seconds = 4 ∧
    String.join
      (serialOut (sketch exampleMpu goodEnv (everyTimeUnit 4294966000) 5001 World.boot).2.trace)
      = "0 1 2 3 " :=
  ⟨rfl, rfl,
    (sketch_end_to_end exampleMpu goodEnv 4294966000 rfl (fun _ _ => rfl)).2.2.2.1,
    (sketch_end_to_end exampleMpu goodEnv 4294966000 rfl (fun _ _ => rfl)).2.2.2.2.1⟩

end I2cBug
